import Mathlib

/-!
Shallow embedding of the catalog-backend `Database` facade
(`plugins/catalog-backend/src/database/Database.ts`, provided as
`src/unnamed/part_000`) and of the OAuth login-popup message protocol of
`OAuthRequestManager` (whose implementation file is absent from the sources;
only its test is present, so that part is modelled from the spec).

Modelling conventions:
* The SQL tables are modelled as Lean lists of row structures; `insert`
  appends, `select` with a `where` clause filters the list in order, so
  `rows[0]` is the first matching row in table order.
* JSON (de)serialization of the `metadata` and `spec` TEXT columns is
  modelled structurally: the column stores the structured value itself
  (`JSON.stringify` of an object is never the empty string, so a stored
  blob is always truthy).
* JavaScript truthiness of strings (`x || null`, `if (uid)`) is `s ≠ ""`,
  and of numbers (`generation || 1`) is `n ≠ 0`; objects are always truthy
  (`serializeSpec` returns `null` only for an absent spec).
* `uuidv4()` is an external randomness source; each operation that calls it
  takes the generated id as an explicit `freshId` argument.
-/

/-- Free-form JSON object payloads (`spec`, `labels`, `annotations` contents)
are modelled as finite key/value lists; the claims only need decidable
equality on them, never their internal structure. -/
structure JsonObj where
  fields : List (String × String)
deriving DecidableEq

/-- The `metadata` part of a `DescriptorEnvelope`
(`plugins/catalog-backend/src/ingestion/descriptors/types.ts`). All fields
are optional; an absent field corresponds to an absent JSON key. -/
structure EntityMetadata where
  uid : Option String
  generation : Option Nat
  name : Option String
  namespc : Option String
  labels : Option JsonObj
  annotations : Option JsonObj
deriving DecidableEq

/-- Embedding of `DescriptorEnvelope` from `types.ts`: the canonical entity shape. -/
structure DescriptorEnvelope where
  apiVersion : String
  kind : String
  metadata : Option EntityMetadata
  spec : Option JsonObj
deriving DecidableEq

/-- Embedding of `DbEntityRequest` from `Database.ts`. -/
structure DbEntityRequest where
  locationId : Option String
  entity : DescriptorEnvelope
deriving DecidableEq

/-- Embedding of `DbEntityResponse` from `Database.ts`. -/
structure DbEntityResponse where
  locationId : Option String
  entity : DescriptorEnvelope
deriving DecidableEq

/-- A row of the `entities` table (`DbEntitiesRow` in `Database.ts`): the
`metadata` and `spec` TEXT columns hold the JSON-decoded value (see module
conventions). -/
structure DbEntitiesRow where
  id : String
  generation : Nat
  locationId : Option String
  apiVersion : String
  kind : String
  name : Option String
  namespc : Option String
  metadata : Option EntityMetadata
  spec : Option JsonObj
deriving DecidableEq

/-- A row of the `locations` table (`DbLocationsRow` / `DatabaseLocation`). -/
structure DatabaseLocation where
  id : String
  type : String
  target : String
deriving DecidableEq

/-- Embedding of `AddDatabaseLocation`: a location to add, without an id. -/
structure AddDatabaseLocation where
  type : String
  target : String
deriving DecidableEq

/-- The store state backing the `Database` facade: the two tables the
claims touch. -/
structure DbState where
  entities : List DbEntitiesRow
  locations : List DatabaseLocation
deriving DecidableEq

/-- Errors raised by the facade: `NotFoundError` and `ConflictError` from
`@backstage/backend-common`. -/
inductive DbError where
  | notFound (message : String)
  | conflict (message : String)
deriving DecidableEq

/-- JavaScript `s || null` (and `s || undefined`) on an optional string:
the empty string is falsy and collapses to `none`. -/
def jsStringOrNull (s : Option String) : Option String :=
  match s with
  | some v => if v = "" then none else some v
  | none => none

/-- Model of `serializeMetadata` from `Database.ts`: `null` for absent metadata,
otherwise the JSON encoding of a copy with the `uid` and `generation` keys
deleted. -/
def serializeMetadata (metadata : Option EntityMetadata) : Option EntityMetadata :=
  match metadata with
  | none => none
  | some m => some { m with uid := none, generation := none }

/-- Model of `serializeSpec` from `Database.ts`: `null` only for an absent spec
(objects are always truthy), otherwise its JSON encoding. -/
def serializeSpec (spec : Option JsonObj) : Option JsonObj :=
  match spec with
  | none => none
  | some s => some s

/-- Model of `entityRequestToDb` from `Database.ts`: flattens a request into a row.
`freshId` stands for the `uuidv4()` call used when no truthy uid is
supplied; `generation || 1` keeps any nonzero client generation. -/
def entityRequestToDb (freshId : String) (request : DbEntityRequest) : DbEntitiesRow :=
  { id :=
      match request.entity.metadata.bind (·.uid) with
      | some u => if u = "" then freshId else u
      | none => freshId
    generation :=
      match request.entity.metadata.bind (·.generation) with
      | some g => if g = 0 then 1 else g
      | none => 1
    locationId := jsStringOrNull request.locationId
    apiVersion := request.entity.apiVersion
    kind := request.entity.kind
    name := jsStringOrNull (request.entity.metadata.bind (·.name))
    namespc := jsStringOrNull (request.entity.metadata.bind (·.namespc))
    metadata := serializeMetadata request.entity.metadata
    spec := serializeSpec request.entity.spec }

/-- JavaScript object spread `{ ...base, ...blob }` on one optional key:
the blob's key wins when present. -/
def spreadField (base blob : Option α) : Option α :=
  match blob with
  | some v => some v
  | none => base

/-- Spread `{ ...entityMetadata, ...parsedBlob }` in `entityDbToResponse`. -/
def spreadMetadata (base blob : EntityMetadata) : EntityMetadata :=
  { uid := spreadField base.uid blob.uid
    generation := spreadField base.generation blob.generation
    name := spreadField base.name blob.name
    namespc := spreadField base.namespc blob.namespc
    labels := spreadField base.labels blob.labels
    annotations := spreadField base.annotations blob.annotations }

/-- Model of `entityDbToResponse` from `Database.ts`: rebuilds the envelope from a
row, seeding metadata with `{ uid: row.id, generation: row.generation }`
and spreading the decoded blob over it. -/
def entityDbToResponse (row : DbEntitiesRow) : DbEntityResponse :=
  let base : EntityMetadata :=
    { uid := some row.id, generation := some row.generation
      name := none, namespc := none, labels := none, annotations := none }
  let md : EntityMetadata :=
    match row.metadata with
    | some blob => spreadMetadata base blob
    | none => base
  { locationId := jsStringOrNull row.locationId
    entity :=
      { apiVersion := row.apiVersion
        kind := row.kind
        metadata := some md
        spec :=
          match row.spec with
          | some s => some s
          | none => none } }

/-- The truthy uid drawn from a request's metadata: `if (uid)` in
`Database.addOrUpdateEntity` skips the existence check for an absent or
empty-string uid. -/
def suppliedUid (request : DbEntityRequest) : Option String :=
  jsStringOrNull (request.entity.metadata.bind (·.uid))

/-- Model of `Database.addOrUpdateEntity`: serializes the request into a row; if a
truthy uid is supplied and no row with that id exists, fails with
`ConflictError` ("Unexpected uid for new entity"); otherwise inserts the row
and re-reads the first row with the new row's id (`generatedRows![0]`). -/
def Database.addOrUpdateEntity (freshId : String) (request : DbEntityRequest)
    (db : DbState) : Except DbError (DbEntityResponse × DbState) :=
  let newRow := entityRequestToDb freshId request
  let check : Except DbError Unit :=
    match suppliedUid request with
    | some u =>
      if (db.entities.filter (fun r => r.id = u)).isEmpty then
        .error (.conflict "Unexpected uid for new entity")
      else
        .ok ()
    | none => .ok ()
  match check with
  | .error e => .error e
  | .ok _ =>
    let entities' := db.entities ++ [newRow]
    match entities'.filter (fun r => r.id = newRow.id) with
    | [] => .error (.notFound "No generated rows")
    | generated :: _ => .ok (entityDbToResponse generated, { db with entities := entities' })

/-- Total order on the nullable `namespace` column used by the generated
`order by namespace asc` (NULLs first, then lexicographic). -/
def namespaceLe (a b : Option String) : Bool :=
  match a, b with
  | none, _ => true
  | some _, none => false
  | some x, some y => x ≤ y

/-- Stable insertion of a row into a list sorted on the `namespace`
column. -/
def insertByNamespace (r : DbEntitiesRow) : List DbEntitiesRow → List DbEntitiesRow
  | [] => [r]
  | x :: xs =>
    if namespaceLe r.namespc x.namespc then r :: x :: xs else x :: insertByNamespace r xs

/-- The ordering produced by `.orderBy` with arguments "namespace" and
"name": the Knex
`orderBy(column, direction)` takes a direction as second argument, and any
direction other than `desc` falls back to ascending, so this sorts by the
single column `namespace` (stably, keeping table order within equal
namespaces); the string "name" does not add a sort key. -/
def orderByNamespace (rows : List DbEntitiesRow) : List DbEntitiesRow :=
  rows.foldr insertByNamespace []

/-- Model of `Database.entities`: all rows in the order produced by
`.orderBy` (see `orderByNamespace`), each mapped through
`entityDbToResponse`. -/
def Database.entities (db : DbState) : List DbEntityResponse :=
  (orderByNamespace db.entities).map entityDbToResponse

/-- The `where` clause of `Database.entity`:
`{ name, namespace: namespace || null }` — the name argument is compared
as-is, the namespace argument is normalized by `|| null`, and a `null`
value compiles to an `is null` test. -/
def entityWhere (name : String) (namespc : Option String) (r : DbEntitiesRow) : Bool :=
  r.name = some name && r.namespc = jsStringOrNull namespc

/-- The message of the `NotFoundError` raised by `Database.entity`. -/
def entityNotFoundMessage (name : String) (namespc : Option String) : String :=
  let ns := match jsStringOrNull namespc with
    | some s => s
    | none => "<null>"
  s!"Found no component with name {name}, namespace {ns}"

/-- Model of `Database.entity(name, namespace?)`: selects by the `(name, namespace)`
pair and fails with `NotFoundError` unless exactly one row matches. -/
def Database.entity (name : String) (namespc : Option String)
    (db : DbState) : Except DbError DbEntityResponse :=
  let items := db.entities.filter (entityWhere name namespc)
  match items with
  | [r] => .ok (entityDbToResponse r)
  | _ => .error (.notFound (entityNotFoundMessage name namespc))

/-- Model of `Database.addLocation`: returns the first existing row with the same
`target` if any; otherwise inserts `{ id: uuidv4(), type, target }` and
re-reads the first row with that id (`[0]` after the insert — the fallback
row of `headD` is unreachable since the inserted row always matches). -/
def Database.addLocation (freshId : String) (location : AddDatabaseLocation)
    (db : DbState) : DatabaseLocation × DbState :=
  match db.locations.filter (fun r => r.target = location.target) with
  | existing :: _ => (existing, db)
  | [] =>
    let row : DatabaseLocation :=
      { id := freshId, type := location.type, target := location.target }
    let locations' := db.locations ++ [row]
    ((locations'.filter (fun r => r.id = freshId)).headD row,
      { db with locations := locations' })

/-- Model of `Database.removeLocation(id)`: deletes the rows with that id and fails
with `NotFoundError` when the deleted count is zero. -/
def Database.removeLocation (id : String) (db : DbState) : Except DbError DbState :=
  let deleted := (db.locations.filter (fun r => r.id = id)).length
  if deleted = 0 then
    .error (.notFound s!"Found no location with ID {id}")
  else
    .ok { db with locations := db.locations.filter (fun r => ¬ (r.id = id)) }

/-- Modelled from the spec: the `error` object a popup payload may carry
(`payload.error` with `name` and `message`); the implementation file
`OAuthRequestManager.ts` is not among the sources, only its test. -/
structure OAuthErrorInfo where
  name : String
  message : String
deriving DecidableEq

/-- Modelled from the spec: the opaque payload delivered through the popup
channel. `rest` stands for the arbitrary remaining content of the payload
object, and `objId` for its JavaScript object identity, so that "resolves
with that exact payload object" is expressible. -/
structure OAuthPayload where
  error : Option OAuthErrorInfo
  rest : JsonObj
  objId : Nat
deriving DecidableEq

/-- Modelled from the spec: the `data` field of a window message,
`{ type, payload }`. -/
structure OAuthMessageData where
  type : Option String
  payload : Option OAuthPayload
deriving DecidableEq

/-- Modelled from the spec: a `MessageEvent` as seen by the popup listener.
Window references are modelled by numeric identities. -/
structure OAuthMessageEvent where
  source : Option Nat
  origin : Option String
  data : Option OAuthMessageData
deriving DecidableEq

/-- Modelled from the spec: how a pending `showLoginPopup` call settles. -/
inductive OAuthOutcome where
  | resolved (payload : OAuthPayload)
  | rejected (name : String) (message : String)
deriving DecidableEq

/-- Modelled from the spec: the per-call state of `showLoginPopup` after the
popup has been opened — the popup window reference, the trusted origin from
the options, the settlement slot (`none` while the promise is pending), and
whether the message listener and the closed-polling timer are still
installed. -/
structure PopupState where
  popup : Nat
  trustedOrigin : String
  outcome : Option OAuthOutcome
  listenerAttached : Bool
  timerActive : Bool
deriving DecidableEq

/-- The `data.type` field of a message, when the message has data. -/
def messageType (msg : OAuthMessageEvent) : Option String :=
  msg.data.bind (·.type)

/-- The `data.payload` field of a message, when the message has data. -/
def messagePayload (msg : OAuthMessageEvent) : Option OAuthPayload :=
  msg.data.bind (·.payload)

/-- Modelled from the spec: the listener's acceptance test — a message is
accepted only if its `source` is the popup window, its `origin` strictly
equals the trusted origin, its `data.type` is `"oauth-result"`, and a
`data.payload` is present; the accepted payload is returned. -/
def acceptedPayload (st : PopupState) (msg : OAuthMessageEvent) : Option OAuthPayload :=
  if msg.source = some st.popup ∧ msg.origin = some st.trustedOrigin ∧
      messageType msg = some "oauth-result" then
    messagePayload msg
  else
    none

/-- Modelled from the spec: how an accepted payload settles the pending
result — a present `payload.error` rejects with an error carrying the same
`name` and `message`; otherwise the call resolves with the payload object
as-is. -/
def settleOutcome (payload : OAuthPayload) : OAuthOutcome :=
  match payload.error with
  | some e => .rejected e.name e.message
  | none => .resolved payload

/-- Modelled from the spec: one delivery of a window message to the
registered listener. A non-accepted message leaves the state untouched; an
accepted one (on a still-pending call) stores the settlement and tears down
the listener and the polling timer exactly once. -/
def handleMessage (st : PopupState) (msg : OAuthMessageEvent) : PopupState :=
  match st.outcome with
  | some _ => st
  | none =>
    match acceptedPayload st msg with
    | none => st
    | some p =>
      { st with outcome := some (settleOutcome p)
                listenerAttached := false
                timerActive := false }

/-- A minimal create request carrying only a name, as in the spec's concrete
scenario (apiVersion "v1", kind "Component", metadata with only a name). -/
def requestNamed (n : String) : DbEntityRequest :=
  { locationId := none
    entity :=
      { apiVersion := "v1"
        kind := "Component"
        metadata := some
          { uid := none, generation := none, name := some n
            namespc := none, labels := none, annotations := none }
        spec := none } }

/-- A create request (no uid) whose client supplies `generation: 7`. -/
def requestWithClientGeneration : DbEntityRequest :=
  { locationId := none
    entity :=
      { apiVersion := "v1"
        kind := "Component"
        metadata := some
          { uid := none, generation := some 7, name := some "a"
            namespc := none, labels := none, annotations := none }
        spec := some ⟨[]⟩ } }

/-- A request supplying a uid that matches no stored row. -/
def requestWithUnknownUid : DbEntityRequest :=
  { locationId := none
    entity :=
      { apiVersion := "v1"
        kind := "Component"
        metadata := some
          { uid := some "existing-uid", generation := none, name := some "a"
            namespc := none, labels := none, annotations := none }
        spec := none } }

/-- The row produced by persisting `requestNamed "a"` with fresh id
`"id-a"`. -/
def rowA : DbEntitiesRow := entityRequestToDb "id-a" (requestNamed "a")

/-- A concrete stored location row. -/
def locRow : DatabaseLocation :=
  { id := "loc-1", type := "github", target := "https://example.com/repo" }

/-- A pending popup call: popup window `1`, trusted origin `"my-origin"`,
listener and timer installed. -/
def popupStatePending : PopupState :=
  { popup := 1, trustedOrigin := "my-origin", outcome := none
    listenerAttached := true, timerActive := true }

/-- A well-formed oauth-result message sent from an untrusted origin. -/
def badOriginMessage : OAuthMessageEvent :=
  { source := some 1
    origin := some "evil-origin"
    data := some
      { type := some "oauth-result"
        payload := some { error := none, rest := ⟨[]⟩, objId := 5 } } }

/-- A payload whose error carries name "NopeError" and message "NOPE", as
in the popup error test. -/
def errorPayload : OAuthPayload :=
  { error := some { name := "NopeError", message := "NOPE" }
    rest := ⟨[]⟩
    objId := 0 }

/-- A trusted, accepted message delivering `errorPayload`. -/
def errorResultMessage : OAuthMessageEvent :=
  { source := some 1
    origin := some "my-origin"
    data := some { type := some "oauth-result", payload := some errorPayload } }

/-- The post-insert state and re-read response claimed by C3's insert path:
the serialized row is appended, the first row matching its id is re-read,
and its envelope is returned together with the updated state. -/
def insertsAndRereads (freshId : String) (request : DbEntityRequest)
    (db : DbState) : Prop :=
  ∃ generated rest,
    (db.entities ++ [entityRequestToDb freshId request]).filter
        (fun r => r.id = (entityRequestToDb freshId request).id) = generated :: rest ∧
    Database.addOrUpdateEntity freshId request db =
      .ok (entityDbToResponse generated,
        { db with entities := db.entities ++ [entityRequestToDb freshId request] })

/-- C4: a message lacking any one of {source identical to the popup,
origin strictly equal to the trusted origin, `data.type = "oauth-result"`,
a present `data.payload`} never settles the pending result: the listener
leaves the state — settlement slot, listener, timer — exactly as it was. -/
theorem handleMessage_ignores_untrusted (st : PopupState) (msg : OAuthMessageEvent)
    (h : msg.source ≠ some st.popup ∨ msg.origin ≠ some st.trustedOrigin ∨
      messageType msg ≠ some "oauth-result" ∨ messagePayload msg = none) :
    handleMessage st msg = st := by
  have hacc : acceptedPayload st msg = none := by
    unfold acceptedPayload
    by_cases hc : msg.source = some st.popup ∧ msg.origin = some st.trustedOrigin ∧
        messageType msg = some "oauth-result"
    · rw [if_pos hc]
      rcases h with h | h | h | h
      · exact absurd hc.1 h
      · exact absurd hc.2.1 h
      · exact absurd hc.2.2 h
      · exact h
    · rw [if_neg hc]
  unfold handleMessage
  cases ho : st.outcome with
  | some s => rfl
  | none => rw [hacc]

/-- C4 witness: a correctly shaped oauth-result message from a wrong origin
leaves the pending state untouched. -/
theorem handleMessage_ignores_untrusted_witness :
    handleMessage popupStatePending badOriginMessage = popupStatePending :=
  handleMessage_ignores_untrusted popupStatePending badOriginMessage
    (Or.inr (Or.inl (by decide)))

/-- C5: an accepted message (matching source, origin, type, with a present
payload) settles a pending call: a payload carrying `error` rejects with an
error holding that error's `name` and `message`; a payload without `error`
resolves with the payload object itself. -/
theorem handleMessage_settles_accepted (st : PopupState) (msg : OAuthMessageEvent)
    (p : OAuthPayload)
    (hpending : st.outcome = none)
    (hsource : msg.source = some st.popup)
    (horigin : msg.origin = some st.trustedOrigin)
    (htype : messageType msg = some "oauth-result")
    (hpayload : messagePayload msg = some p) :
    (handleMessage st msg).outcome =
      some (match p.error with
        | some e => OAuthOutcome.rejected e.name e.message
        | none => OAuthOutcome.resolved p) := by
  unfold handleMessage
  rw [hpending]
  have hacc : acceptedPayload st msg = some p := by
    unfold acceptedPayload
    rw [if_pos ⟨hsource, horigin, htype⟩]
    exact hpayload
  rw [hacc]
  simp only [settleOutcome]

/-- C5 witness: delivering the error payload to the pending call rejects it
with name `NopeError` and message `NOPE`. -/
theorem handleMessage_settles_accepted_witness :
    (handleMessage popupStatePending errorResultMessage).outcome =
      some (OAuthOutcome.rejected "NopeError" "NOPE") :=
  handleMessage_settles_accepted popupStatePending errorResultMessage errorPayload
    rfl rfl rfl rfl rfl

/-- C2 (code bug): `entityRequestToDb` computes `generation || 1`, so a
create request (no uid) that supplies `generation: 7` stores 7 — not 1 —
and the returned envelope reports generation 7, although the descriptor
type documentation says generation cannot be set by the user at creation
time. -/
theorem addOrUpdateEntity_stores_client_generation :
    (entityRequestToDb "fresh-1" requestWithClientGeneration).generation = 7 ∧
    (Database.addOrUpdateEntity "fresh-1" requestWithClientGeneration ⟨[], []⟩).toOption.map
        (fun pr => pr.1.entity.metadata.map (·.generation)) =
      some (some (some 7)) := by
  constructor
  · rfl
  · rfl

/-- C7 (code bug): inserting entities named `"b"` then `"a"` (equal
namespaces) and listing them returns the names in insertion order
`[b, a]`: the `.orderBy` call passes "name" as the sort
direction, so rows are not ordered by name within a namespace. -/
theorem entities_not_ordered_by_name :
    ((Database.addOrUpdateEntity "id-b" (requestNamed "b") ⟨[], []⟩).toOption.bind
      (fun pr1 => (Database.addOrUpdateEntity "id-a" (requestNamed "a") pr1.2).toOption.map
        (fun pr2 => (Database.entities pr2.2).map
          (fun resp => resp.entity.metadata.bind (·.name))))) =
      some [some "b", some "a"] := by
  rfl

/-- C10: client-supplied uid/generation never reach the stored metadata
blob — the blob of every row written by `addOrUpdateEntity` has no uid and
no generation key — and reading such a row back yields metadata whose uid
is the row's id column and whose generation is the row's generation
column. -/
theorem row_metadata_blob_has_no_uid_generation (freshId : String)
    (request : DbEntityRequest) :
    ((entityRequestToDb freshId request).metadata.bind (·.uid) = none ∧
      (entityRequestToDb freshId request).metadata.bind (·.generation) = none) ∧
    ∃ md,
      (entityDbToResponse (entityRequestToDb freshId request)).entity.metadata = some md ∧
      md.uid = some (entityRequestToDb freshId request).id ∧
      md.generation = some (entityRequestToDb freshId request).generation := by
  cases hm : request.entity.metadata with
  | none =>
    refine ⟨⟨?_, ?_⟩, ?_⟩ <;>
      simp [entityRequestToDb, serializeMetadata, entityDbToResponse, hm]
  | some m =>
    refine ⟨⟨?_, ?_⟩, ?_⟩ <;>
      simp [entityRequestToDb, serializeMetadata, entityDbToResponse,
        spreadMetadata, spreadField, hm]

/-- C8: `entity(name, namespace)` fails with the NotFound error exactly when
the number of rows matching the `(name, namespace)` pair differs from one —
zero matches or several — and returns the single matching entity
otherwise. -/
theorem entity_ok_iff_unique_match (name : String) (namespc : Option String)
    (db : DbState) :
    ((db.entities.filter (entityWhere name namespc)).length ≠ 1 →
      Database.entity name namespc db =
        .error (.notFound (entityNotFoundMessage name namespc))) ∧
    (∀ r, db.entities.filter (entityWhere name namespc) = [r] →
      Database.entity name namespc db = .ok (entityDbToResponse r)) ∧
    ((∃ e, Database.entity name namespc db = .ok e) ↔
      (db.entities.filter (entityWhere name namespc)).length = 1) := by
  have hent : Database.entity name namespc db =
      (match db.entities.filter (entityWhere name namespc) with
        | [r] => Except.ok (entityDbToResponse r)
        | _ => Except.error (.notFound (entityNotFoundMessage name namespc))) := rfl
  rcases hl : db.entities.filter (entityWhere name namespc) with _ | ⟨r, _ | ⟨r2, rest⟩⟩ <;>
      rw [hl] at hent <;> simp only at hent
  · refine ⟨fun _ => hent, fun r h => ?_, ?_⟩
    · exact absurd h (by simp)
    · simp [hent]
  · refine ⟨fun hlen => ?_, fun r' h => ?_, ?_⟩
    · simp at hlen
    · injection h with h1 _
      rw [← h1]
      exact hent
    · simp [hent]
  · refine ⟨fun _ => hent, fun r' h => ?_, ?_⟩
    · simp at h
    · simp [hent]

/-- C8 witness: on a store holding exactly the row for name `a`, the entity
lookup returns that row's envelope. -/
theorem entity_ok_iff_unique_match_witness :
    Database.entity "a" none ⟨[rowA], []⟩ = .ok (entityDbToResponse rowA) :=
  (entity_ok_iff_unique_match "a" none ⟨[rowA], []⟩).2.1 rowA (by decide)

/-- C9: `removeLocation(id)` fails with NotFound exactly when no row has
that id (nothing was deleted); otherwise it succeeds, removing the rows
with that id. -/
theorem removeLocation_deletes_or_notFound (id : String) (db : DbState) :
    (Database.removeLocation id db =
        .error (.notFound s!"Found no location with ID {id}") ↔
      db.locations.filter (fun r => r.id = id) = []) ∧
    (db.locations.filter (fun r => r.id = id) ≠ [] →
      Database.removeLocation id db =
        .ok { db with locations := db.locations.filter (fun r => ¬ (r.id = id)) }) := by
  unfold Database.removeLocation
  by_cases h : (db.locations.filter (fun r => r.id = id)).length = 0
  · rw [if_pos h]
    have h0 : db.locations.filter (fun r => r.id = id) = [] :=
      List.length_eq_zero.mp h
    exact ⟨⟨fun _ => h0, fun _ => rfl⟩, fun hne => absurd h0 hne⟩
  · rw [if_neg h]
    refine ⟨⟨fun he => ?_, fun h0 => ?_⟩, fun _ => rfl⟩
    · simp at he
    · exact absurd (by rw [h0]; rfl) h

/-- C9 witness: removing the only stored location succeeds and empties the
table; the theorem is applied at that concrete store. -/
theorem removeLocation_deletes_or_notFound_witness :
    Database.removeLocation "loc-1" ⟨[], [locRow]⟩ =
      .ok { entities := [], locations := [] } :=
  (removeLocation_deletes_or_notFound "loc-1" ⟨[], [locRow]⟩).2 (by decide)

/-- Every element of a filter by id equals that id, so taking the head with
a default of the same id yields that id. -/
theorem filter_headD_id (f : String) (l : List DatabaseLocation) (d : DatabaseLocation)
    (hd : d.id = f) : ((l.filter (fun r => r.id = f)).headD d).id = f := by
  induction l with
  | nil => simpa using hd
  | cons x xs ih =>
    rw [List.filter_cons]
    by_cases hx : x.id = f
    · rw [if_pos (decide_eq_true hx)]
      exact hx
    · rw [if_neg (by simp [hx])]
      exact ih

/-- Helper: `addLocation` on a store with no row for the target: the returned id is
the freshly generated one and the row is appended. -/
theorem addLocation_fst_id_of_no_match (f : String) (loc : AddDatabaseLocation)
    (db : DbState)
    (h : db.locations.filter (fun x => x.target = loc.target) = []) :
    (Database.addLocation f loc db).1.id = f ∧
    (Database.addLocation f loc db).2 =
      { db with locations := db.locations ++ [⟨f, loc.type, loc.target⟩] } := by
  unfold Database.addLocation
  rw [h]
  exact ⟨filter_headD_id f _ _ rfl, rfl⟩

/-- Helper: `addLocation` on a store already holding a row with the same target
returns the first such row and leaves the store unchanged. -/
theorem addLocation_fst_of_match (f : String) (loc : AddDatabaseLocation)
    (db : DbState) (r : DatabaseLocation) (rest : List DatabaseLocation)
    (h : db.locations.filter (fun x => x.target = loc.target) = r :: rest) :
    Database.addLocation f loc db = (r, db) := by
  unfold Database.addLocation
  rw [h]

/-- C6: `addLocation` is idempotent by target — when a row with the same
target exists, that (first matching) row is returned and the store is
unchanged; and two consecutive `addLocation` calls with the same target
return the same id both times. -/
theorem addLocation_idempotent_by_target (f1 f2 : String)
    (loc1 loc2 : AddDatabaseLocation) (db : DbState)
    (htarget : loc1.target = loc2.target) :
    (∀ r rest, db.locations.filter (fun x => x.target = loc1.target) = r :: rest →
      Database.addLocation f1 loc1 db = (r, db)) ∧
    (Database.addLocation f2 loc2 (Database.addLocation f1 loc1 db).2).1.id =
      (Database.addLocation f1 loc1 db).1.id := by
  refine ⟨fun r rest h => addLocation_fst_of_match f1 loc1 db r rest h, ?_⟩
  rcases hf : db.locations.filter (fun x => x.target = loc1.target) with _ | ⟨r, rest⟩
  · obtain ⟨hid1, hst1⟩ := addLocation_fst_id_of_no_match f1 loc1 db hf
    rw [hid1, hst1]
    have hfilter2 :
        ({ db with locations := db.locations ++ [⟨f1, loc1.type, loc1.target⟩] } :
            DbState).locations.filter (fun x => x.target = loc2.target) =
          ⟨f1, loc1.type, loc1.target⟩ :: [] := by
      show (db.locations ++ [({ id := f1, type := loc1.type, target := loc1.target } :
            DatabaseLocation)]).filter (fun x : DatabaseLocation => x.target = loc2.target) =
          [({ id := f1, type := loc1.type, target := loc1.target } : DatabaseLocation)]
      rw [List.filter_append, ← htarget, hf]
      simp
    rw [addLocation_fst_of_match f2 loc2 _ _ _ hfilter2]
  · have h1 := addLocation_fst_of_match f1 loc1 db r rest hf
    rw [h1]
    have hf2 : db.locations.filter (fun x => x.target = loc2.target) = r :: rest := by
      rw [← htarget]
      exact hf
    rw [addLocation_fst_of_match f2 loc2 db r rest hf2]

/-- C6 witness: on a store already holding a row for target `t1`,
`addLocation` returns that row and changes nothing; and two consecutive
calls for target `t1` on an empty store return the same id. -/
theorem addLocation_idempotent_by_target_witness :
    Database.addLocation "L3" ⟨"github", "t1"⟩ ⟨[], [⟨"L0", "github", "t1"⟩]⟩ =
      (⟨"L0", "github", "t1"⟩, ⟨[], [⟨"L0", "github", "t1"⟩]⟩) ∧
    (Database.addLocation "L2" ⟨"github", "t1"⟩
        (Database.addLocation "L1" ⟨"github", "t1"⟩ ⟨[], []⟩).2).1.id =
      (Database.addLocation "L1" ⟨"github", "t1"⟩ ⟨[], []⟩).1.id :=
  ⟨(addLocation_idempotent_by_target "L3" "L3" ⟨"github", "t1"⟩ ⟨"github", "t1"⟩
        ⟨[], [⟨"L0", "github", "t1"⟩]⟩ rfl).1 ⟨"L0", "github", "t1"⟩ [] (by decide),
    (addLocation_idempotent_by_target "L1" "L2" ⟨"github", "t1"⟩ ⟨"github", "t1"⟩
        ⟨[], []⟩ rfl).2⟩

/-- The re-read after the insert can never come back empty: the inserted
row itself matches its own id, so `generatedRows![0]` is well-defined. -/
theorem reread_filter_nonempty (freshId : String) (request : DbEntityRequest)
    (db : DbState) :
    ∃ g rest, (db.entities ++ [entityRequestToDb freshId request]).filter
      (fun r => r.id = (entityRequestToDb freshId request).id) = g :: rest := by
  have hne : (db.entities ++ [entityRequestToDb freshId request]).filter
      (fun r => r.id = (entityRequestToDb freshId request).id) ≠ [] := by
    apply List.ne_nil_of_mem (a := entityRequestToDb freshId request)
    rw [List.mem_filter]
    exact ⟨List.mem_append_right _ (List.mem_singleton_self _), by simp⟩
  obtain ⟨g, rest, h⟩ := List.exists_cons_of_ne_nil hne
  exact ⟨g, rest, h⟩

/-- C3: when a (truthy) uid is supplied and no stored row has that id, the
operation fails with the conflict error; otherwise — uid absent or a
matching row present — the serialized row is inserted and the re-read
persisted form is returned. -/
theorem addOrUpdateEntity_uid_conflict_or_insert (freshId : String)
    (request : DbEntityRequest) (db : DbState) :
    (∀ u, suppliedUid request = some u →
      (db.entities.filter (fun r => r.id = u) = [] →
        Database.addOrUpdateEntity freshId request db =
          .error (.conflict "Unexpected uid for new entity")) ∧
      (db.entities.filter (fun r => r.id = u) ≠ [] →
        insertsAndRereads freshId request db)) ∧
    (suppliedUid request = none → insertsAndRereads freshId request db) := by
  obtain ⟨g, rest, hre⟩ := reread_filter_nonempty freshId request db
  constructor
  · intro u hsup
    constructor
    · intro hfu
      simp only [Database.addOrUpdateEntity, hsup, hfu]
      rfl
    · intro hfu
      unfold insertsAndRereads
      refine ⟨g, rest, hre, ?_⟩
      rcases hx : db.entities.filter (fun r => r.id = u) with _ | ⟨x, xs⟩
      · exact absurd hx hfu
      · simp only [Database.addOrUpdateEntity, hsup, hx, hre]
        rfl
  · intro hsup
    unfold insertsAndRereads
    refine ⟨g, rest, hre, ?_⟩
    simp only [Database.addOrUpdateEntity, hsup, hre]

/-- C3 witness: supplying uid `existing-uid` against an empty store fails
with the conflict error. -/
theorem addOrUpdateEntity_uid_conflict_or_insert_witness :
    Database.addOrUpdateEntity "fresh-2" requestWithUnknownUid ⟨[], []⟩ =
      .error (.conflict "Unexpected uid for new entity") :=
  ((addOrUpdateEntity_uid_conflict_or_insert "fresh-2" requestWithUnknownUid
      ⟨[], []⟩).1 "existing-uid" (by decide)).1 (by decide)

/-- Whenever `addOrUpdateEntity` succeeds, the resulting store is the old
one with the serialized row appended to the entities table. -/
theorem addOrUpdateEntity_ok_state (freshId : String) (request : DbEntityRequest)
    (db : DbState) (resp : DbEntityResponse) (db' : DbState)
    (hok : Database.addOrUpdateEntity freshId request db = .ok (resp, db')) :
    db' = { db with entities := db.entities ++ [entityRequestToDb freshId request] } := by
  rcases hsup : suppliedUid request with _ | u
  · simp only [Database.addOrUpdateEntity, hsup] at hok
    rcases hre : (db.entities ++ [entityRequestToDb freshId request]).filter
        (fun r => r.id = (entityRequestToDb freshId request).id) with _ | ⟨g, gs⟩
    · rw [hre] at hok
      simp at hok
    · rw [hre] at hok
      simp at hok
      exact hok.2.symm
  · simp only [Database.addOrUpdateEntity, hsup] at hok
    rcases hfu : db.entities.filter (fun r => r.id = u) with _ | ⟨x, xs⟩
    · rw [hfu] at hok
      simp at hok
    · rw [hfu] at hok
      rcases hre : (db.entities ++ [entityRequestToDb freshId request]).filter
          (fun r => r.id = (entityRequestToDb freshId request).id) with _ | ⟨g, gs⟩
      · rw [hre] at hok
        simp at hok
      · rw [hre] at hok
        simp at hok
        exact hok.2.symm

/-- A row serialized from a request whose metadata carries a nonempty name
matches the `entity` lookup for that name and the request's namespace. -/
theorem newRow_matches_lookup (freshId : String) (request : DbEntityRequest)
    (m : EntityMetadata) (n : String)
    (hmeta : request.entity.metadata = some m)
    (hname : m.name = some n) (hne : n ≠ "") :
    entityWhere n m.namespc (entityRequestToDb freshId request) = true := by
  unfold entityWhere entityRequestToDb
  simp [hmeta, hname, jsStringOrNull, hne]

/-- C1: persisting an entity whose metadata carries a (truthy) name and
then re-reading it via `entity(name, namespace)` — on a store with no
other row for that `(name, namespace)` pair — yields an envelope with the
request's apiVersion, kind, metadata.name, metadata.namespace and spec,
and with uid and generation populated. -/
theorem addOrUpdateEntity_entity_roundtrip (freshId : String)
    (request : DbEntityRequest) (db : DbState) (m : EntityMetadata) (n : String)
    (resp : DbEntityResponse) (db' : DbState)
    (hmeta : request.entity.metadata = some m)
    (hname : m.name = some n)
    (hne : n ≠ "")
    (hnodup : db.entities.filter (entityWhere n m.namespc) = [])
    (hok : Database.addOrUpdateEntity freshId request db = .ok (resp, db')) :
    ∃ out md,
      Database.entity n m.namespc db' = .ok out ∧
      out.entity.apiVersion = request.entity.apiVersion ∧
      out.entity.kind = request.entity.kind ∧
      out.entity.metadata = some md ∧
      md.name = some n ∧
      md.namespc = m.namespc ∧
      out.entity.spec = request.entity.spec ∧
      md.uid.isSome = true ∧
      md.generation.isSome = true := by
  have hstate := addOrUpdateEntity_ok_state freshId request db resp db' hok
  subst hstate
  have hfilter : (db.entities ++ [entityRequestToDb freshId request]).filter
      (entityWhere n m.namespc) = [entityRequestToDb freshId request] := by
    rw [List.filter_append, hnodup, List.filter_cons,
      if_pos (newRow_matches_lookup freshId request m n hmeta hname hne)]
    rfl
  have hent : Database.entity n m.namespc
      { db with entities := db.entities ++ [entityRequestToDb freshId request] } =
      .ok (entityDbToResponse (entityRequestToDb freshId request)) := by
    simp only [Database.entity]
    rw [hfilter]
  refine ⟨_, _, hent, rfl, rfl, rfl, ?_, ?_, ?_, ?_, ?_⟩
  · simp [entityDbToResponse, entityRequestToDb, serializeMetadata,
      spreadMetadata, spreadField, hmeta, hname]
  · simp only [entityDbToResponse, entityRequestToDb, serializeMetadata, hmeta]
    cases m.namespc <;> simp [spreadMetadata, spreadField]
  · simp only [entityDbToResponse, entityRequestToDb, serializeSpec]
    cases request.entity.spec <;> simp
  · simp [entityDbToResponse, entityRequestToDb, serializeMetadata,
      spreadMetadata, spreadField, hmeta]
  · simp [entityDbToResponse, entityRequestToDb, serializeMetadata,
      spreadMetadata, spreadField, hmeta]

/-- C1 witness: persisting `requestNamed "a"` into an empty store and
re-reading the entity named `a` yields the round-tripped envelope with uid and
generation populated. -/
theorem addOrUpdateEntity_entity_roundtrip_witness :
    ∃ out md,
      Database.entity "a" none ⟨[rowA], []⟩ = .ok out ∧
      out.entity.apiVersion = "v1" ∧
      out.entity.kind = "Component" ∧
      out.entity.metadata = some md ∧
      md.name = some "a" ∧
      md.namespc = none ∧
      out.entity.spec = none ∧
      md.uid.isSome = true ∧
      md.generation.isSome = true :=
  addOrUpdateEntity_entity_roundtrip "id-a" (requestNamed "a") ⟨[], []⟩
    ⟨none, none, some "a", none, none, none⟩ "a" (entityDbToResponse rowA)
    ⟨[rowA], []⟩ rfl rfl (by decide) rfl rfl
